import Mathlib

/-!
Shallow embedding of `src/js/source/source.js`: the source-type registry
(`sourceTypes`), the factory-invocation function `exports.create`, and the
registry accessors `exports.getType` / `exports.setType`.

Modelling decisions:
* A JS object used as a dictionary (`sourceTypes`) is a total function
  `String → Option Factory`; property assignment is pointwise update.
* A JS function value that may be used as a method is a `JsMethod`: an
  implementation identifier together with an optional bound receiver
  (`Function.prototype.bind` fixes the receiver).  Object reference identity
  is modelled by an `oid : Nat` field.
* `create` may fail (the JS code throws); it returns `Except CreateError Source`.
  Looking up an absent type name yields `undefined` and the call
  `sourceTypes[source.type](...)` fails before any factory runs; this failure
  is the condition the spec names `UnknownSourceType`.  The id check throws
  the message built on line 34 of the source, named `IdentityMismatch` by the
  spec.
* A factory may itself register source types (in JS it can call
  `exports.setType`), so a `Factory` returns, besides the constructed
  `Source`, the list of `(name, factory)` registrations it performed; `create`
  threads the registry state through explicitly.
-/

/-- The options object handed to `create` and to factories: its `type` field
(read by `create`) plus the remaining, type-specific payload. -/
structure Options where
  type : String
  payload : List (String × String)
deriving DecidableEq, Repr

/-- Opaque dispatcher handle, passed through to the factory unmodified. -/
structure Dispatcher where
  tag : Nat
deriving DecidableEq, Repr

/-- A JS function value usable as a method: an implementation identifier and
the receiver fixed by `Function.prototype.bind`, if any. -/
structure JsMethod where
  impl : Nat
  boundRecv : Option Nat
deriving DecidableEq, Repr

/-- Modelled from the spec: binding a method to a receiver (§4.2 "bind the
instance's lifecycle methods ... to the instance itself").  The bound method
carries the receiver. -/
def JsMethod.bindTo (m : JsMethod) (recv : Nat) : JsMethod :=
  { m with boundRecv := some recv }

/-- The receiver a method call executes with, given the dynamic receiver of
the call site (`none` = invoked detached): the bound receiver wins. -/
def JsMethod.receiverOn (m : JsMethod) (dyn : Option Nat) : Option Nat :=
  match m.boundRecv with
  | some r => some r
  | none => dyn

/-- A constructed source instance.  `oid` models JS reference identity.
Besides the interface attributes of the spec's §3 data model, it carries the
five lifecycle methods `create` binds (`load`, `abort`, `unload`, `serialize`,
`prepare`), the per-tile methods of the `Source` interface (which `create`
does not bind), and `serialized`, the options object its `serialize` method
returns (modelled from the spec: concrete implementations are not under
`src/`; §4.3 "serialize() -> options"). -/
structure Source where
  oid : Nat
  id : String
  minzoom : Nat
  maxzoom : Nat
  isTileClipped : Bool
  reparseOverscaled : Bool
  roundZoom : Bool
  serialized : Options
  load : JsMethod
  abort : JsMethod
  unload : JsMethod
  serialize : JsMethod
  prepare : JsMethod
  loadTile : JsMethod
  abortTile : JsMethod
  unloadTile : JsMethod
deriving DecidableEq, Repr

/-- A source-type factory: given `(id, options, dispatcher)` it produces a
`Source` together with the list of `(name, factory)` registrations it made
through `setType` while running (empty for a factory that does not touch the
registry). -/
inductive Factory : Type where
  | mk : (String → Options → Dispatcher → Source × List (String × Factory)) → Factory

/-- Run a factory on `(id, options, dispatcher)`. -/
def Factory.run : Factory → String → Options → Dispatcher → Source × List (String × Factory)
  | .mk f => f

/-- The registry state: the `sourceTypes` object as a string-keyed map. -/
abbrev Registry := String → Option Factory

/-- `exports.getType`. -/
def getType (reg : Registry) (name : String) : Option Factory :=
  reg name

/-- `exports.setType`: property assignment on `sourceTypes`. -/
def setType (reg : Registry) (name : String) (t : Factory) : Registry :=
  fun m => if m = name then some t else reg m

/-- Apply, in order, the registrations a factory performed while running. -/
def applyRegistrations (reg : Registry) (rs : List (String × Factory)) : Registry :=
  rs.foldl (fun acc p => setType acc p.1 p.2) reg

/-- The failure conditions of `create`, under the names the spec's error
taxonomy (§7) gives them. -/
inductive CreateError where
  | unknownSourceType (typeName : String)
  | identityMismatch (requested returned : String)
deriving DecidableEq, Repr

/-- The message of the error thrown on line 34 of `source.js`:
`'Expected Source id to be ' + id + ' instead of ' + source.id`. -/
def identityMismatchMessage (requested returned : String) : String :=
  "Expected Source id to be " ++ requested ++ " instead of " ++ returned

/-- The names `create` passes to `util.bindAll` (line 37 of `source.js`). -/
def lifecycleMethods : List String :=
  ["load", "abort", "unload", "serialize", "prepare"]

/-- Modelled from the spec: `util.bindAll` (`../util/util`, not under `src/`)
binding one named method of `source` to `source` itself (§4.2: "bind the
instance's lifecycle methods ... to the instance itself so they may be passed
around and invoked without losing their receiver context"). -/
def bindOne (s : Source) (name : String) : Source :=
  if name = "load" then { s with load := s.load.bindTo s.oid }
  else if name = "abort" then { s with abort := s.abort.bindTo s.oid }
  else if name = "unload" then { s with unload := s.unload.bindTo s.oid }
  else if name = "serialize" then { s with serialize := s.serialize.bindTo s.oid }
  else if name = "prepare" then { s with prepare := s.prepare.bindTo s.oid }
  else if name = "loadTile" then { s with loadTile := s.loadTile.bindTo s.oid }
  else if name = "abortTile" then { s with abortTile := s.abortTile.bindTo s.oid }
  else if name = "unloadTile" then { s with unloadTile := s.unloadTile.bindTo s.oid }
  else s

/-- Modelled from the spec: `util.bindAll(fns, context)` binds each named
method of `context` to `context`. -/
def bindAll (names : List String) (s : Source) : Source :=
  names.foldl bindOne s

/-- `exports.create` (lines 30–39 of `source.js`):
look up `source.type` in the registry (an absent name makes the call
`sourceTypes[source.type](...)` fail: `UnknownSourceType`, no factory runs);
invoke the factory; if the returned instance's `id` differs from the
requested one, throw the line-34 error (`IdentityMismatch`); otherwise bind
the five lifecycle methods to the instance and return it.  The registry
component of the result reflects any `setType` calls the factory made. -/
def create (reg : Registry) (id : String) (source : Options) (d : Dispatcher) :
    Except CreateError Source × Registry :=
  match reg source.type with
  | none => (.error (.unknownSourceType source.type), reg)
  | some factory =>
    let r := factory.run id source d
    let reg' := applyRegistrations reg r.2
    if r.1.id ≠ id then
      (.error (.identityMismatch id r.1.id), reg')
    else
      (.ok (bindAll lifecycleMethods r.1), reg')

/-- A source with the given id, serialization and object identity; the stand-in
instance the modelled built-in factories construct. -/
def defaultSource (oid : Nat) (id : String) (o : Options) : Source :=
  { oid := oid, id := id, minzoom := 0, maxzoom := 22,
    isTileClipped := false, reparseOverscaled := false, roundZoom := false,
    serialized := o,
    load := ⟨1, none⟩, abort := ⟨2, none⟩, unload := ⟨3, none⟩,
    serialize := ⟨4, none⟩, prepare := ⟨5, none⟩,
    loadTile := ⟨6, none⟩, abortTile := ⟨7, none⟩, unloadTile := ⟨8, none⟩ }

/-- Modelled from the spec: `../source/vector_tile_source` is not under
`src/`; the spec requires only a factory `(id, options, dispatcher) → Source`
that does not touch the registry. -/
def vectorTileSourceCreate : Factory :=
  .mk fun id o _ => (defaultSource 1 id o, [])

/-- Modelled from the spec: `../source/raster_tile_source` is not under `src/`. -/
def rasterTileSourceCreate : Factory :=
  .mk fun id o _ => (defaultSource 2 id o, [])

/-- Modelled from the spec: `../source/geojson_source` is not under `src/`. -/
def geojsonSourceCreate : Factory :=
  .mk fun id o _ => (defaultSource 3 id o, [])

/-- Modelled from the spec: `../source/video_source` is not under `src/`. -/
def videoSourceCreate : Factory :=
  .mk fun id o _ => (defaultSource 4 id o, [])

/-- Modelled from the spec: `../source/image_source` is not under `src/`. -/
def imageSourceCreate : Factory :=
  .mk fun id o _ => (defaultSource 5 id o, [])

/-- The initial registry (lines 5–11 of `source.js`): exactly the five
built-in type names. -/
def sourceTypes : Registry := fun n =>
  if n = "vector" then some vectorTileSourceCreate
  else if n = "raster" then some rasterTileSourceCreate
  else if n = "geojson" then some geojsonSourceCreate
  else if n = "video" then some videoSourceCreate
  else if n = "image" then some imageSourceCreate
  else none

/-- The instance `create` hands back on success: the factory's return value
with the five lifecycle methods bound to it. -/
def boundInstance (f : Factory) (id : String) (o : Options) (d : Dispatcher) : Source :=
  bindAll lifecycleMethods (f.run id o d).1

theorem bindTo_boundRecv (m : JsMethod) (r : Nat) : (m.bindTo r).boundRecv = some r := rfl

theorem bindTo_impl (m : JsMethod) (r : Nat) : (m.bindTo r).impl = m.impl := rfl

theorem bindTo_receiverOn (m : JsMethod) (r : Nat) (dyn : Option Nat) :
    (m.bindTo r).receiverOn dyn = some r := rfl

/-- Computed form of binding the five lifecycle methods: exactly the `load`,
`abort`, `unload`, `serialize` and `prepare` slots change, each to the method
bound to the instance. -/
theorem bindAll_lifecycle_eq (s : Source) :
    bindAll lifecycleMethods s =
      { s with load := s.load.bindTo s.oid, abort := s.abort.bindTo s.oid,
               unload := s.unload.bindTo s.oid, serialize := s.serialize.bindTo s.oid,
               prepare := s.prepare.bindTo s.oid } := rfl

theorem bindLifecycle_oid (s : Source) : (bindAll lifecycleMethods s).oid = s.oid := by
  rw [bindAll_lifecycle_eq]

theorem bindLifecycle_id (s : Source) : (bindAll lifecycleMethods s).id = s.id := by
  rw [bindAll_lifecycle_eq]

theorem bindLifecycle_minzoom (s : Source) :
    (bindAll lifecycleMethods s).minzoom = s.minzoom := by
  rw [bindAll_lifecycle_eq]

theorem bindLifecycle_maxzoom (s : Source) :
    (bindAll lifecycleMethods s).maxzoom = s.maxzoom := by
  rw [bindAll_lifecycle_eq]

theorem bindLifecycle_isTileClipped (s : Source) :
    (bindAll lifecycleMethods s).isTileClipped = s.isTileClipped := by
  rw [bindAll_lifecycle_eq]

theorem bindLifecycle_reparseOverscaled (s : Source) :
    (bindAll lifecycleMethods s).reparseOverscaled = s.reparseOverscaled := by
  rw [bindAll_lifecycle_eq]

theorem bindLifecycle_roundZoom (s : Source) :
    (bindAll lifecycleMethods s).roundZoom = s.roundZoom := by
  rw [bindAll_lifecycle_eq]

theorem bindLifecycle_serialized (s : Source) :
    (bindAll lifecycleMethods s).serialized = s.serialized := by
  rw [bindAll_lifecycle_eq]

theorem bindLifecycle_load (s : Source) :
    (bindAll lifecycleMethods s).load = s.load.bindTo s.oid := by
  rw [bindAll_lifecycle_eq]

theorem bindLifecycle_abort (s : Source) :
    (bindAll lifecycleMethods s).abort = s.abort.bindTo s.oid := by
  rw [bindAll_lifecycle_eq]

theorem bindLifecycle_unload (s : Source) :
    (bindAll lifecycleMethods s).unload = s.unload.bindTo s.oid := by
  rw [bindAll_lifecycle_eq]

theorem bindLifecycle_serialize (s : Source) :
    (bindAll lifecycleMethods s).serialize = s.serialize.bindTo s.oid := by
  rw [bindAll_lifecycle_eq]

theorem bindLifecycle_prepare (s : Source) :
    (bindAll lifecycleMethods s).prepare = s.prepare.bindTo s.oid := by
  rw [bindAll_lifecycle_eq]

theorem bindLifecycle_loadTile (s : Source) :
    (bindAll lifecycleMethods s).loadTile = s.loadTile := by
  rw [bindAll_lifecycle_eq]

theorem bindLifecycle_abortTile (s : Source) :
    (bindAll lifecycleMethods s).abortTile = s.abortTile := by
  rw [bindAll_lifecycle_eq]

theorem bindLifecycle_unloadTile (s : Source) :
    (bindAll lifecycleMethods s).unloadTile = s.unloadTile := by
  rw [bindAll_lifecycle_eq]

/-- `create` once the registry lookup succeeded: the only remaining branch is
the id check. -/
theorem create_lookup_some (reg : Registry) (id : String) (o : Options) (d : Dispatcher)
    (f : Factory) (h : reg o.type = some f) :
    create reg id o d =
      if ((f.run id o d).1).id ≠ id then
        (.error (.identityMismatch id ((f.run id o d).1).id),
          applyRegistrations reg (f.run id o d).2)
      else
        (.ok (boundInstance f id o d), applyRegistrations reg (f.run id o d).2) := by
  unfold create
  rw [h]
  rfl

/-- The registry `create` leaves behind when the lookup fails: untouched. -/
theorem create_registry_eq_none (reg : Registry) (id : String) (o : Options)
    (d : Dispatcher) (h : reg o.type = none) :
    (create reg id o d).2 = reg := by
  unfold create
  rw [h]

/-- The registry `create` leaves behind when the lookup succeeds: the input
registry plus whatever registrations the factory performed, on both the
success and the id-mismatch path. -/
theorem create_registry_eq_some (reg : Registry) (id : String) (o : Options)
    (d : Dispatcher) (f : Factory) (h : reg o.type = some f) :
    (create reg id o d).2 = applyRegistrations reg (f.run id o d).2 := by
  rw [create_lookup_some reg id o d f h]
  split <;> rfl

/-- C1: for every registered type name and options object of that type whose
factory returns an instance carrying the requested id, `create` succeeds and
the returned `Source`'s `id` equals the `id` argument. -/
theorem create_returns_requested_id
    (reg : Registry) (id : String) (o : Options) (d : Dispatcher) (f : Factory)
    (hreg : reg o.type = some f)
    (hid : ((f.run id o d).1).id = id) :
    (create reg id o d).1 = .ok (boundInstance f id o d) ∧
    (boundInstance f id o d).id = id := by
  have h1 := create_lookup_some reg id o d f hreg
  rw [if_neg (not_not_intro hid)] at h1
  rw [h1]
  refine ⟨rfl, ?_⟩
  simp only [boundInstance, bindLifecycle_id]
  exact hid

theorem create_returns_requested_id_witness :
    (create sourceTypes "a" ⟨"vector", [("url", "u")]⟩ ⟨0⟩).1
      = .ok (boundInstance vectorTileSourceCreate "a" ⟨"vector", [("url", "u")]⟩ ⟨0⟩) ∧
    (boundInstance vectorTileSourceCreate "a" ⟨"vector", [("url", "u")]⟩ ⟨0⟩).id = "a" :=
  create_returns_requested_id sourceTypes "a" ⟨"vector", [("url", "u")]⟩ ⟨0⟩
    vectorTileSourceCreate rfl rfl

/-- C2: for a type name absent from the registry, `create` fails with the
`UnknownSourceType` condition, hands no `Source` to the caller, and leaves the
registry untouched (no factory exists to be invoked). -/
theorem create_unknown_type
    (reg : Registry) (id : String) (o : Options) (d : Dispatcher)
    (h : reg o.type = none) :
    create reg id o d = (.error (.unknownSourceType o.type), reg) := by
  unfold create
  rw [h]

theorem create_unknown_type_witness :
    create sourceTypes "a" ⟨"custom", []⟩ ⟨0⟩
      = (.error (.unknownSourceType "custom"), sourceTypes) :=
  create_unknown_type sourceTypes "a" ⟨"custom", []⟩ ⟨0⟩ rfl

/-- C3: when the factory returns an instance whose id differs from the
requested one, `create` fails with the `IdentityMismatch` error carrying both
ids — its message (line 34) spells out both — and the result holds no source
instance, so nothing partially bound reaches the caller. -/
theorem create_identity_mismatch
    (reg : Registry) (id : String) (o : Options) (d : Dispatcher) (f : Factory)
    (hreg : reg o.type = some f)
    (hne : ((f.run id o d).1).id ≠ id) :
    create reg id o d =
      (.error (.identityMismatch id ((f.run id o d).1).id),
        applyRegistrations reg (f.run id o d).2) ∧
    (∃ p q, identityMismatchMessage id ((f.run id o d).1).id
        = p ++ id ++ q ++ ((f.run id o d).1).id) := by
  have h1 := create_lookup_some reg id o d f hreg
  rw [if_pos hne] at h1
  exact ⟨h1, "Expected Source id to be ", " instead of ", rfl⟩

/-- A factory that ignores the requested id and builds a source with id "b":
the mismatch witness. -/
def badFactory : Factory :=
  .mk fun _ o _ => (defaultSource 9 "b" o, [])

theorem create_identity_mismatch_witness :
    create (setType sourceTypes "bad" badFactory) "a" ⟨"bad", []⟩ ⟨0⟩
      = (.error (.identityMismatch "a" "b"),
          applyRegistrations (setType sourceTypes "bad" badFactory) []) ∧
    (∃ p q, identityMismatchMessage "a" "b" = p ++ "a" ++ q ++ "b") :=
  create_identity_mismatch (setType sourceTypes "bad" badFactory) "a" ⟨"bad", []⟩ ⟨0⟩
    badFactory rfl (by decide)

/-- C4: `setType` then `getType` on the same name returns exactly the
just-registered factory, for any prior registry state (later registrations
overwrite earlier ones; overwriting raises no error). -/
theorem setType_then_getType (reg : Registry) (name : String) (f : Factory) :
    getType (setType reg name f) name = some f := by
  simp [getType, setType]

/-- C5: the initial registry defines a factory for exactly the five built-in
type names `vector`, `raster`, `geojson`, `video` and `image`, and yields
`undefined` (`none`) for every other name. -/
theorem initial_registry_exactly_builtins :
    getType sourceTypes "vector" = some vectorTileSourceCreate ∧
    getType sourceTypes "raster" = some rasterTileSourceCreate ∧
    getType sourceTypes "geojson" = some geojsonSourceCreate ∧
    getType sourceTypes "video" = some videoSourceCreate ∧
    getType sourceTypes "image" = some imageSourceCreate ∧
    ∀ n : String,
      n ∉ (["vector", "raster", "geojson", "video", "image"] : List String) →
      getType sourceTypes n = none := by
  refine ⟨rfl, rfl, rfl, rfl, rfl, ?_⟩
  intro n hn
  simp only [List.mem_cons, List.not_mem_nil, or_false, not_or] at hn
  obtain ⟨h1, h2, h3, h4, h5⟩ := hn
  simp [getType, sourceTypes, h1, h2, h3, h4, h5]

/-- C6: round-trip law. For a source `s` constructed by `create`, if the
factory registered for `s.serialize()`'s type honours the serialize contract
(§4.3: re-creating from the serialized options yields a source with the same
id and the same serialization), then `create(s.id, s.serialize(), d)` succeeds
and the new source's serialize output is deep-equal to `s.serialize()`. -/
theorem serialize_roundtrip
    (reg₀ reg₁ : Registry) (id : String) (o : Options) (d d' : Dispatcher)
    (s : Source) (r : Registry)
    (hs : create reg₀ id o d = (.ok s, r))
    (f : Factory) (hf : reg₁ s.serialized.type = some f)
    (hid : ((f.run s.id s.serialized d').1).id = s.id)
    (hser : ((f.run s.id s.serialized d').1).serialized = s.serialized) :
    (create reg₁ s.id s.serialized d').1 =
      .ok (boundInstance f s.id s.serialized d') ∧
    (boundInstance f s.id s.serialized d').serialized = s.serialized := by
  have h1 := create_lookup_some reg₁ s.id s.serialized d' f hf
  rw [if_neg (not_not_intro hid)] at h1
  rw [h1]
  refine ⟨rfl, ?_⟩
  simp only [boundInstance, bindLifecycle_serialized]
  exact hser

theorem serialize_roundtrip_witness :
    (create sourceTypes
        (boundInstance vectorTileSourceCreate "a" ⟨"vector", []⟩ ⟨0⟩).id
        (boundInstance vectorTileSourceCreate "a" ⟨"vector", []⟩ ⟨0⟩).serialized ⟨1⟩).1 =
      .ok (boundInstance vectorTileSourceCreate
        (boundInstance vectorTileSourceCreate "a" ⟨"vector", []⟩ ⟨0⟩).id
        (boundInstance vectorTileSourceCreate "a" ⟨"vector", []⟩ ⟨0⟩).serialized ⟨1⟩) ∧
    (boundInstance vectorTileSourceCreate
        (boundInstance vectorTileSourceCreate "a" ⟨"vector", []⟩ ⟨0⟩).id
        (boundInstance vectorTileSourceCreate "a" ⟨"vector", []⟩ ⟨0⟩).serialized ⟨1⟩).serialized
      = (boundInstance vectorTileSourceCreate "a" ⟨"vector", []⟩ ⟨0⟩).serialized :=
  serialize_roundtrip sourceTypes sourceTypes "a" ⟨"vector", []⟩ ⟨0⟩ ⟨1⟩
    (boundInstance vectorTileSourceCreate "a" ⟨"vector", []⟩ ⟨0⟩) sourceTypes rfl
    vectorTileSourceCreate rfl rfl rfl

/-- C7: on every successful call, `create` binds exactly the five lifecycle
methods `load`, `abort`, `unload`, `serialize`, `prepare` of the constructed
instance to the instance itself — each, invoked detached (dynamic receiver
`none`), still executes with the instance as receiver — while the tile
methods stay unbound, and `create` returns that bound instance. -/
theorem create_binds_lifecycle
    (reg : Registry) (id : String) (o : Options) (d : Dispatcher) (f : Factory)
    (hreg : reg o.type = some f)
    (hid : ((f.run id o d).1).id = id) :
    (create reg id o d).1 = .ok (boundInstance f id o d) ∧
    (boundInstance f id o d).load.boundRecv = some (boundInstance f id o d).oid ∧
    (boundInstance f id o d).abort.boundRecv = some (boundInstance f id o d).oid ∧
    (boundInstance f id o d).unload.boundRecv = some (boundInstance f id o d).oid ∧
    (boundInstance f id o d).serialize.boundRecv = some (boundInstance f id o d).oid ∧
    (boundInstance f id o d).prepare.boundRecv = some (boundInstance f id o d).oid ∧
    (boundInstance f id o d).load.receiverOn none = some (boundInstance f id o d).oid ∧
    (boundInstance f id o d).abort.receiverOn none = some (boundInstance f id o d).oid ∧
    (boundInstance f id o d).unload.receiverOn none = some (boundInstance f id o d).oid ∧
    (boundInstance f id o d).serialize.receiverOn none = some (boundInstance f id o d).oid ∧
    (boundInstance f id o d).prepare.receiverOn none = some (boundInstance f id o d).oid ∧
    (boundInstance f id o d).loadTile = ((f.run id o d).1).loadTile ∧
    (boundInstance f id o d).abortTile = ((f.run id o d).1).abortTile ∧
    (boundInstance f id o d).unloadTile = ((f.run id o d).1).unloadTile := by
  have h1 := create_lookup_some reg id o d f hreg
  rw [if_neg (not_not_intro hid)] at h1
  rw [h1]
  refine ⟨rfl, ?_, ?_, ?_, ?_, ?_, ?_, ?_, ?_, ?_, ?_, ?_, ?_, ?_⟩ <;>
    simp only [boundInstance, bindLifecycle_load, bindLifecycle_abort, bindLifecycle_unload,
      bindLifecycle_serialize, bindLifecycle_prepare, bindLifecycle_oid,
      bindLifecycle_loadTile, bindLifecycle_abortTile, bindLifecycle_unloadTile,
      bindTo_boundRecv, bindTo_receiverOn]

theorem create_binds_lifecycle_witness :
    (create sourceTypes "v" ⟨"video", []⟩ ⟨2⟩).1
      = .ok (boundInstance videoSourceCreate "v" ⟨"video", []⟩ ⟨2⟩) ∧
    (boundInstance videoSourceCreate "v" ⟨"video", []⟩ ⟨2⟩).load.boundRecv
      = some (boundInstance videoSourceCreate "v" ⟨"video", []⟩ ⟨2⟩).oid ∧
    (boundInstance videoSourceCreate "v" ⟨"video", []⟩ ⟨2⟩).abort.boundRecv
      = some (boundInstance videoSourceCreate "v" ⟨"video", []⟩ ⟨2⟩).oid ∧
    (boundInstance videoSourceCreate "v" ⟨"video", []⟩ ⟨2⟩).unload.boundRecv
      = some (boundInstance videoSourceCreate "v" ⟨"video", []⟩ ⟨2⟩).oid ∧
    (boundInstance videoSourceCreate "v" ⟨"video", []⟩ ⟨2⟩).serialize.boundRecv
      = some (boundInstance videoSourceCreate "v" ⟨"video", []⟩ ⟨2⟩).oid ∧
    (boundInstance videoSourceCreate "v" ⟨"video", []⟩ ⟨2⟩).prepare.boundRecv
      = some (boundInstance videoSourceCreate "v" ⟨"video", []⟩ ⟨2⟩).oid ∧
    (boundInstance videoSourceCreate "v" ⟨"video", []⟩ ⟨2⟩).load.receiverOn none
      = some (boundInstance videoSourceCreate "v" ⟨"video", []⟩ ⟨2⟩).oid ∧
    (boundInstance videoSourceCreate "v" ⟨"video", []⟩ ⟨2⟩).abort.receiverOn none
      = some (boundInstance videoSourceCreate "v" ⟨"video", []⟩ ⟨2⟩).oid ∧
    (boundInstance videoSourceCreate "v" ⟨"video", []⟩ ⟨2⟩).unload.receiverOn none
      = some (boundInstance videoSourceCreate "v" ⟨"video", []⟩ ⟨2⟩).oid ∧
    (boundInstance videoSourceCreate "v" ⟨"video", []⟩ ⟨2⟩).serialize.receiverOn none
      = some (boundInstance videoSourceCreate "v" ⟨"video", []⟩ ⟨2⟩).oid ∧
    (boundInstance videoSourceCreate "v" ⟨"video", []⟩ ⟨2⟩).prepare.receiverOn none
      = some (boundInstance videoSourceCreate "v" ⟨"video", []⟩ ⟨2⟩).oid ∧
    (boundInstance videoSourceCreate "v" ⟨"video", []⟩ ⟨2⟩).loadTile
      = ((videoSourceCreate.run "v" ⟨"video", []⟩ ⟨2⟩).1).loadTile ∧
    (boundInstance videoSourceCreate "v" ⟨"video", []⟩ ⟨2⟩).abortTile
      = ((videoSourceCreate.run "v" ⟨"video", []⟩ ⟨2⟩).1).abortTile ∧
    (boundInstance videoSourceCreate "v" ⟨"video", []⟩ ⟨2⟩).unloadTile
      = ((videoSourceCreate.run "v" ⟨"video", []⟩ ⟨2⟩).1).unloadTile :=
  create_binds_lifecycle sourceTypes "v" ⟨"video", []⟩ ⟨2⟩ videoSourceCreate rfl rfl

/-- C8: `create` returns the very object the factory produced, not a copy —
same object identity — and every attribute other than the five rebound
lifecycle methods is unchanged; even those five keep their implementation and
change only their bound receiver. -/
theorem create_returns_factory_object
    (reg : Registry) (id : String) (o : Options) (d : Dispatcher) (f : Factory)
    (hreg : reg o.type = some f)
    (hid : ((f.run id o d).1).id = id) :
    (create reg id o d).1 = .ok (boundInstance f id o d) ∧
    (boundInstance f id o d).oid = ((f.run id o d).1).oid ∧
    (boundInstance f id o d).id = ((f.run id o d).1).id ∧
    (boundInstance f id o d).minzoom = ((f.run id o d).1).minzoom ∧
    (boundInstance f id o d).maxzoom = ((f.run id o d).1).maxzoom ∧
    (boundInstance f id o d).isTileClipped = ((f.run id o d).1).isTileClipped ∧
    (boundInstance f id o d).reparseOverscaled = ((f.run id o d).1).reparseOverscaled ∧
    (boundInstance f id o d).roundZoom = ((f.run id o d).1).roundZoom ∧
    (boundInstance f id o d).serialized = ((f.run id o d).1).serialized ∧
    (boundInstance f id o d).loadTile = ((f.run id o d).1).loadTile ∧
    (boundInstance f id o d).abortTile = ((f.run id o d).1).abortTile ∧
    (boundInstance f id o d).unloadTile = ((f.run id o d).1).unloadTile ∧
    (boundInstance f id o d).load.impl = ((f.run id o d).1).load.impl ∧
    (boundInstance f id o d).abort.impl = ((f.run id o d).1).abort.impl ∧
    (boundInstance f id o d).unload.impl = ((f.run id o d).1).unload.impl ∧
    (boundInstance f id o d).serialize.impl = ((f.run id o d).1).serialize.impl ∧
    (boundInstance f id o d).prepare.impl = ((f.run id o d).1).prepare.impl := by
  have h1 := create_lookup_some reg id o d f hreg
  rw [if_neg (not_not_intro hid)] at h1
  rw [h1]
  refine ⟨rfl, ?_, ?_, ?_, ?_, ?_, ?_, ?_, ?_, ?_, ?_, ?_, ?_, ?_, ?_, ?_, ?_⟩ <;>
    simp only [boundInstance, bindLifecycle_oid, bindLifecycle_id, bindLifecycle_minzoom,
      bindLifecycle_maxzoom, bindLifecycle_isTileClipped, bindLifecycle_reparseOverscaled,
      bindLifecycle_roundZoom, bindLifecycle_serialized, bindLifecycle_loadTile,
      bindLifecycle_abortTile, bindLifecycle_unloadTile, bindLifecycle_load,
      bindLifecycle_abort, bindLifecycle_unload, bindLifecycle_serialize,
      bindLifecycle_prepare, bindTo_impl]

theorem create_returns_factory_object_witness :
    (create sourceTypes "g" ⟨"geojson", [("data", "d")]⟩ ⟨3⟩).1
      = .ok (boundInstance geojsonSourceCreate "g" ⟨"geojson", [("data", "d")]⟩ ⟨3⟩) ∧
    (boundInstance geojsonSourceCreate "g" ⟨"geojson", [("data", "d")]⟩ ⟨3⟩).oid
      = ((geojsonSourceCreate.run "g" ⟨"geojson", [("data", "d")]⟩ ⟨3⟩).1).oid ∧
    (boundInstance geojsonSourceCreate "g" ⟨"geojson", [("data", "d")]⟩ ⟨3⟩).id
      = ((geojsonSourceCreate.run "g" ⟨"geojson", [("data", "d")]⟩ ⟨3⟩).1).id ∧
    (boundInstance geojsonSourceCreate "g" ⟨"geojson", [("data", "d")]⟩ ⟨3⟩).minzoom
      = ((geojsonSourceCreate.run "g" ⟨"geojson", [("data", "d")]⟩ ⟨3⟩).1).minzoom ∧
    (boundInstance geojsonSourceCreate "g" ⟨"geojson", [("data", "d")]⟩ ⟨3⟩).maxzoom
      = ((geojsonSourceCreate.run "g" ⟨"geojson", [("data", "d")]⟩ ⟨3⟩).1).maxzoom ∧
    (boundInstance geojsonSourceCreate "g" ⟨"geojson", [("data", "d")]⟩ ⟨3⟩).isTileClipped
      = ((geojsonSourceCreate.run "g" ⟨"geojson", [("data", "d")]⟩ ⟨3⟩).1).isTileClipped ∧
    (boundInstance geojsonSourceCreate "g" ⟨"geojson", [("data", "d")]⟩ ⟨3⟩).reparseOverscaled
      = ((geojsonSourceCreate.run "g" ⟨"geojson", [("data", "d")]⟩ ⟨3⟩).1).reparseOverscaled ∧
    (boundInstance geojsonSourceCreate "g" ⟨"geojson", [("data", "d")]⟩ ⟨3⟩).roundZoom
      = ((geojsonSourceCreate.run "g" ⟨"geojson", [("data", "d")]⟩ ⟨3⟩).1).roundZoom ∧
    (boundInstance geojsonSourceCreate "g" ⟨"geojson", [("data", "d")]⟩ ⟨3⟩).serialized
      = ((geojsonSourceCreate.run "g" ⟨"geojson", [("data", "d")]⟩ ⟨3⟩).1).serialized ∧
    (boundInstance geojsonSourceCreate "g" ⟨"geojson", [("data", "d")]⟩ ⟨3⟩).loadTile
      = ((geojsonSourceCreate.run "g" ⟨"geojson", [("data", "d")]⟩ ⟨3⟩).1).loadTile ∧
    (boundInstance geojsonSourceCreate "g" ⟨"geojson", [("data", "d")]⟩ ⟨3⟩).abortTile
      = ((geojsonSourceCreate.run "g" ⟨"geojson", [("data", "d")]⟩ ⟨3⟩).1).abortTile ∧
    (boundInstance geojsonSourceCreate "g" ⟨"geojson", [("data", "d")]⟩ ⟨3⟩).unloadTile
      = ((geojsonSourceCreate.run "g" ⟨"geojson", [("data", "d")]⟩ ⟨3⟩).1).unloadTile ∧
    (boundInstance geojsonSourceCreate "g" ⟨"geojson", [("data", "d")]⟩ ⟨3⟩).load.impl
      = ((geojsonSourceCreate.run "g" ⟨"geojson", [("data", "d")]⟩ ⟨3⟩).1).load.impl ∧
    (boundInstance geojsonSourceCreate "g" ⟨"geojson", [("data", "d")]⟩ ⟨3⟩).abort.impl
      = ((geojsonSourceCreate.run "g" ⟨"geojson", [("data", "d")]⟩ ⟨3⟩).1).abort.impl ∧
    (boundInstance geojsonSourceCreate "g" ⟨"geojson", [("data", "d")]⟩ ⟨3⟩).unload.impl
      = ((geojsonSourceCreate.run "g" ⟨"geojson", [("data", "d")]⟩ ⟨3⟩).1).unload.impl ∧
    (boundInstance geojsonSourceCreate "g" ⟨"geojson", [("data", "d")]⟩ ⟨3⟩).serialize.impl
      = ((geojsonSourceCreate.run "g" ⟨"geojson", [("data", "d")]⟩ ⟨3⟩).1).serialize.impl ∧
    (boundInstance geojsonSourceCreate "g" ⟨"geojson", [("data", "d")]⟩ ⟨3⟩).prepare.impl
      = ((geojsonSourceCreate.run "g" ⟨"geojson", [("data", "d")]⟩ ⟨3⟩).1).prepare.impl :=
  create_returns_factory_object sourceTypes "g" ⟨"geojson", [("data", "d")]⟩ ⟨3⟩
    geojsonSourceCreate rfl rfl

/-- C9: `create` itself never mutates the registry — if the invoked factory
(when there is one) performs no `setType` registrations, every name maps to
the same factory before and after the `create` call, whether it succeeds or
fails. -/
theorem create_preserves_registry
    (reg : Registry) (id : String) (o : Options) (d : Dispatcher)
    (h : ∀ f, reg o.type = some f → (f.run id o d).2 = []) :
    ∀ n, getType (create reg id o d).2 n = getType reg n := by
  intro n
  rcases hc : reg o.type with _ | f
  · rw [create_registry_eq_none reg id o d hc]
  · rw [create_registry_eq_some reg id o d f hc, h f hc]
    rfl

theorem create_preserves_registry_witness :
    getType (create sourceTypes "a" ⟨"vector", []⟩ ⟨0⟩).2 "geojson"
      = getType sourceTypes "geojson" :=
  create_preserves_registry sourceTypes "a" ⟨"vector", []⟩ ⟨0⟩
    (fun f hf => by
      have h' : some vectorTileSourceCreate = some f := hf
      cases h'
      rfl)
    "geojson"

/-- C10: `setType` touches only the named entry — for any distinct names `n`
and `m`, `getType m` is unchanged by `setType n f`. -/
theorem setType_frame (reg : Registry) (n m : String) (f : Factory)
    (h : m ≠ n) : getType (setType reg n f) m = getType reg m := by
  simp [getType, setType, h]

theorem setType_frame_witness :
    getType (setType sourceTypes "custom" badFactory) "vector"
      = getType sourceTypes "vector" :=
  setType_frame sourceTypes "custom" "vector" badFactory (by decide)
